import Mathlib

/-!
Verification development for the MCP desktop client core
(src-tauri/src/infrastructure: mcp_transport.rs, mcp_client.rs,
proper_mcp_client.rs, stdio_transport.rs).

The correlator, transport request path and session-client operations are
embedded as executable Lean definitions; the JSON-RPC domain types, which
live in the crate module `domain` (not part of the provided sources), are
modelled from the data model in the specification.
-/

/-- Modelled from the spec: minimal JSON value tree (the `serde_json::Value`
payloads the client moves around). -/
inductive Json where
  | null
  | bool (b : Bool)
  | num (n : Int)
  | str (s : String)
  | arr (xs : List Json)
  | obj (fields : List (String × Json))
deriving Repr

/-- Modelled from the spec: a JSON-RPC id is a string or an integer
(section 3, Message; `domain::json_rpc::JsonRpcId`). This client generates
string ids but the wire data model admits integers. -/
inductive JsonRpcId where
  | str (s : String)
  | num (n : Int)
deriving Repr, DecidableEq

/-- Modelled from the spec: a JSON-RPC error object carries `code`,
`message` and optional `data` (`domain::json_rpc`). -/
structure JsonRpcError where
  code : Int
  message : String
  data : Option Json := none
deriving Repr

/-- Modelled from the spec: a JSON-RPC response carries an id and one of
`result` or `error` (`domain::json_rpc::JsonRpcResponse`). -/
structure JsonRpcResponse where
  id : JsonRpcId
  result : Option Json
  error : Option JsonRpcError
deriving Repr

/-- The transport error enum of mcp_transport.rs (lines 13-25). The payloads
of `Io` and `Json` are kept as their display strings. -/
inductive TransportError where
  | Io (msg : String)
  | Json (msg : String)
  | ChannelClosed
  | Timeout
  | Process (msg : String)
deriving Repr, DecidableEq

/-- Association-list reading of the `HashMap` keyed by correlation id:
first binding for a key wins, mirroring unique-key hash-map lookup. -/
def mapLookup {α : Type} (m : List (String × α)) (k : String) : Option α :=
  match m with
  | [] => none
  | (k₁, v) :: rest => if k₁ = k then some v else mapLookup rest k

/-- `HashMap::remove`: drop the binding for `k`. -/
def mapRemove {α : Type} (m : List (String × α)) (k : String) : List (String × α) :=
  m.filter (fun p => p.1 ≠ k)

/-- `HashMap::insert`: replace any existing binding for `k` with `v`. -/
def mapInsert {α : Type} (m : List (String × α)) (k : String) (v : α) : List (String × α) :=
  mapRemove m k ++ [(k, v)]

theorem mapLookup_mapRemove_self {α : Type} (m : List (String × α)) (k : String) :
    mapLookup (mapRemove m k) k = none := by
  induction m with
  | nil => rfl
  | cons p rest ih =>
    by_cases h : p.1 = k
    · simpa [mapRemove, h] using ih
    · simpa [mapRemove, mapLookup, h] using ih

theorem mapLookup_append_of_none {α : Type} (l₁ l₂ : List (String × α)) (k : String)
    (h : mapLookup l₁ k = none) : mapLookup (l₁ ++ l₂) k = mapLookup l₂ k := by
  induction l₁ with
  | nil => rfl
  | cons p rest ih =>
    by_cases hk : p.1 = k
    · simp [mapLookup, hk] at h
    · simp [mapLookup, hk] at h ⊢
      exact ih h

theorem mapLookup_mapInsert_self {α : Type} (m : List (String × α)) (k : String) (v : α) :
    mapLookup (mapInsert m k v) k = some v := by
  unfold mapInsert
  rw [mapLookup_append_of_none _ _ _ (mapLookup_mapRemove_self m k)]
  simp [mapLookup]

/-- The registration arm of the correlator task `pending_handle`
(mcp_transport.rs lines 107-109): `pending_requests.insert(id, sender)`.
A slot is named by an abstract token. Note the arm has no failure channel:
its codomain is just the updated map. -/
def pendingRegister (m : List (String × Nat)) (id : String) (slot : Nat) :
    List (String × Nat) :=
  mapInsert m id slot

/-- mcp_transport.rs lines 114-120: turn a response into the value sent into
the completion slot. A server error object is flattened into the display
string of `TransportError::Process`. -/
def formatRpcError (code : Int) (message : String) : String :=
  "RPC error " ++ toString code ++ ": " ++ message

def responseToResult (r : JsonRpcResponse) : Except TransportError Json :=
  match r.result with
  | some v => .ok v
  | none =>
    match r.error with
    | some e => .error (.Process (formatRpcError e.code e.message))
    | none => .error (.Process "Invalid response")

/-- Outcome of the response arm of `pending_handle`: the map after the
message was processed, and the slot woken with its value, if any. -/
structure DeliverOutcome where
  pmap : List (String × Nat)
  delivered : Option (Nat × Except TransportError Json)
deriving Repr

/-- The response arm of the correlator task `pending_handle`
(mcp_transport.rs lines 111-124): only string ids are matched; a matching
entry is removed and its slot woken; everything else is dropped with the
map untouched. -/
def pendingDeliver (m : List (String × Nat)) (r : JsonRpcResponse) : DeliverOutcome :=
  match r.id with
  | .str id =>
    match mapLookup m id with
    | some slot => { pmap := mapRemove m id, delivered := some (slot, responseToResult r) }
    | none => { pmap := m, delivered := none }
  | .num _ => { pmap := m, delivered := none }

/-- `McpClient::handle_message` on a response (mcp_client.rs lines 56-68):
only string ids are matched; a matching entry is removed; the slot is woken
only when the response carries a `result` (an error response is logged and
the removed sender dropped). -/
def handle_message (m : List (String × Nat)) (r : JsonRpcResponse) :
    List (String × Nat) × Option (Nat × Json) :=
  match r.id with
  | .str id =>
    match mapLookup m id with
    | some slot =>
      (mapRemove m id,
        match r.result with
        | some v => some (slot, v)
        | none => none)
    | none => (m, none)
  | .num _ => (m, none)

/-- The deadline passed to `tokio::time::timeout` in
`StdioTransport::send_request` (mcp_transport.rs line 234), in seconds. -/
def transportSendDeadline : Nat := 30

/-- The deadline passed to `tokio::time::timeout` in
`McpClient::send_request` (mcp_client.rs line 103), in seconds. -/
def mcpClientSendDeadline : Nat := 10

/-- What the completion channel yields when it yields at all. -/
inductive RxOutcome where
  | delivered (v : Except TransportError Json)
  | senderDropped
deriving Repr

/-- mcp_transport.rs lines 234-238: await the completion slot against the
30 second deadline. `arrival` is the time, in seconds, at which the channel
yields, `none` when it never does. -/
def awaitWithTimeout (arrival : Option (Nat × RxOutcome)) : Except TransportError Json :=
  match arrival with
  | none => .error .Timeout
  | some (t, o) =>
    if t < transportSendDeadline then
      match o with
      | .delivered v => v
      | .senderDropped => .error .ChannelClosed
    else .error .Timeout

/-- What `McpClient`'s completion channel yields: the oneshot there carries
a bare JSON value (mcp_client.rs line 86). -/
inductive ClientRxOutcome where
  | delivered (v : Json)
  | senderDropped
deriving Repr

/-- mcp_client.rs lines 103-119: await the completion slot against the
10 second deadline; errors are boxed display strings in that file. -/
def clientAwaitWithTimeout (arrival : Option (Nat × ClientRxOutcome)) : Except String Json :=
  match arrival with
  | none => .error "Request timeout"
  | some (t, o) =>
    if t < mcpClientSendDeadline then
      match o with
      | .delivered v => .ok v
      | .senderDropped => .error "channel closed"
    else .error "Request timeout"

/-- Result and final correlator map of a `send_request` run. -/
structure TimeoutPathRun where
  result : TransportError
  pmap : List (String × Nat)
deriving Repr, DecidableEq

/-- `StdioTransport::send_request` when the response never arrives within
the deadline (mcp_transport.rs lines 214-238): the id is registered with
the correlator, the request is written, and on timeout the function
returns `Timeout` without any deregistration — no arm of the source
removes the entry on this path. -/
def sendRequestTimeoutPath (m : List (String × Nat)) (id : String) (slot : Nat) :
    TimeoutPathRun :=
  { result := .Timeout, pmap := pendingRegister m id slot }

/-- Error string and final map of the `McpClient::send_request` timeout path. -/
structure ClientTimeoutRun where
  errMsg : String
  pmap : List (String × Nat)
deriving Repr, DecidableEq

/-- `McpClient::send_request` when the response never arrives
(mcp_client.rs lines 86-119): the entry is inserted before the send and,
on timeout, removed again before the error is returned. -/
def clientSendRequestTimeoutPath (m : List (String × Nat)) (id : String) (slot : Nat) :
    ClientTimeoutRun :=
  { errMsg := "Request timeout", pmap := mapRemove (mapInsert m id slot) id }

/-- Modelled from the spec: the `tools` sub-capability record
(`domain::mcp_types::ToolsCapability`, section 3 of the spec). -/
structure ToolsCapability where
  list : Bool
deriving Repr, DecidableEq

/-- Modelled from the spec: `prompts` sub-capability. -/
structure PromptsCapability where
  list : Bool
deriving Repr, DecidableEq

/-- Modelled from the spec: `resources` sub-capability. -/
structure ResourcesCapability where
  list : Bool
deriving Repr, DecidableEq

/-- Modelled from the spec: server capabilities with optional `tools`,
`prompts`, `resources` sub-capabilities (`domain::mcp_types`). -/
structure ServerCapabilities where
  tools : Option ToolsCapability
  prompts : Option PromptsCapability
  resources : Option ResourcesCapability
deriving Repr, DecidableEq

/-- Modelled from the spec: a tool record (`domain::mcp_types::Tool`):
name, optional description, arbitrary input schema. -/
structure Tool where
  name : String
  description : Option String
  input_schema : Json
deriving Repr

/-- The client state enum of proper_mcp_client.rs (lines 20-26). -/
inductive ClientState where
  | Disconnected
  | Connecting
  | Connected
  | Error (reason : String)
deriving Repr, DecidableEq

/-- The client error enum of proper_mcp_client.rs (lines 8-18). -/
inductive McpClientError where
  | Transport (e : TransportError)
  | Protocol (msg : String)
  | NotConnected
  | Serialization (msg : String)
deriving Repr, DecidableEq

/-- The session client of proper_mcp_client.rs (lines 28-33). The transport
is opaque here; operations consult only its presence and exchange wire
traffic through an explicit oracle. -/
structure ProperMcpClient where
  transport : Option Unit
  state : ClientState
  server_capabilities : Option ServerCapabilities
  tools : List Tool
deriving Repr

/-- A transport oracle: what `transport.send_request(method, params)`
returns for the one request an operation issues. -/
def TransportOracle : Type := String → Option Json → Except TransportError Json

/-- Result of a session-client operation together with the requests it put
on the wire, as (method, params) pairs. -/
structure OpOutcome (α : Type) where
  result : Except McpClientError α
  sent : List (String × Option Json)

/-- Modelled from the spec: parse one entry of the `tools` array of a
`tools/list` response (wire table, section 6; `domain::mcp_types::Tool`
deserialization). -/
def parseTool (v : Json) : Option Tool :=
  match v with
  | .obj fields =>
    match mapLookup fields "name" with
    | some (.str n) =>
      some { name := n
             description := match mapLookup fields "description" with
               | some (.str d) => some d
               | _ => none
             input_schema := (mapLookup fields "inputSchema").getD .null }
    | _ => none
  | _ => none

/-- Modelled from the spec: parse a `tools/list` response
`\x7btools: [...]\x7d` (`domain::mcp_types::ListToolsResponse`). -/
def parseListToolsResponse (v : Json) : Option (List Tool) :=
  match v with
  | .obj fields =>
    match mapLookup fields "tools" with
    | some (.arr items) => items.mapM parseTool
    | _ => none
  | _ => none

/-- Modelled from the spec: a `tools/call` response `\x7bcontent: [...]\x7d`,
entries kept opaque (`domain::mcp_types::CallToolResponse`). -/
structure CallToolResponse where
  content : List Json
deriving Repr

/-- Modelled from the spec: parse a `tools/call` response. -/
def parseCallToolResponse (v : Json) : Option CallToolResponse :=
  match v with
  | .obj fields =>
    match mapLookup fields "content" with
    | some (.arr items) => some { content := items }
    | _ => none
  | _ => none

/-- Modelled from the spec: the params object of `tools/call` —
`\x7bname, arguments?\x7d`, `arguments` omitted when absent
(`domain::mcp_types::CallToolRequest` serialization, section 4.3). -/
def callToolParams (name : String) (args : Option Json) : Json :=
  .obj ([("name", .str name)] ++
    (match args with
     | some a => [("arguments", a)]
     | none => []))

/-- `ProperMcpClient::list_tools` (proper_mcp_client.rs lines 172-234):
fail `NotConnected` without a transport; fail `Protocol` before the
capabilities are stored; return `[]` without wire traffic when the stored
capabilities lack `tools`; otherwise issue `tools/list`, parse, cache and
return the tools. -/
def list_tools (c : ProperMcpClient) (oracle : TransportOracle) :
    OpOutcome (List Tool) × ProperMcpClient :=
  match c.transport with
  | none => ({ result := .error .NotConnected, sent := [] }, c)
  | some _ =>
    match c.server_capabilities with
    | none => ({ result := .error (.Protocol "Server not initialized"), sent := [] }, c)
    | some caps =>
      match caps.tools with
      | none => ({ result := .ok [], sent := [] }, c)
      | some _ =>
        match oracle "tools/list" none with
        | .error e => ({ result := .error (.Transport e), sent := [("tools/list", none)] }, c)
        | .ok v =>
          match parseListToolsResponse v with
          | some ts =>
            ({ result := .ok ts, sent := [("tools/list", none)] }, { c with tools := ts })
          | none =>
            ({ result := .error (.Protocol "Invalid tools/list response"),
               sent := [("tools/list", none)] }, c)

/-- `ProperMcpClient::call_tool` (proper_mcp_client.rs lines 236-253):
the only gate is transport presence; with a transport the `tools/call`
request is always issued, whatever the state or capabilities. -/
def call_tool (c : ProperMcpClient) (oracle : TransportOracle)
    (name : String) (args : Option Json) :
    OpOutcome CallToolResponse × ProperMcpClient :=
  match c.transport with
  | none => ({ result := .error .NotConnected, sent := [] }, c)
  | some _ =>
    let params := some (callToolParams name args)
    match oracle "tools/call" params with
    | .error e => ({ result := .error (.Transport e), sent := [("tools/call", params)] }, c)
    | .ok v =>
      match parseCallToolResponse v with
      | some resp => ({ result := .ok resp, sent := [("tools/call", params)] }, c)
      | none =>
        ({ result := .error (.Protocol "Invalid tools/call response"),
           sent := [("tools/call", params)] }, c)

/-- `ProperMcpClient::get_state` (proper_mcp_client.rs lines 255-257). -/
def get_state (c : ProperMcpClient) : ClientState :=
  c.state

/-- `StdioTransport::close` (mcp_transport.rs lines 254-260): kill and wait
are best-effort, their errors discarded; `close` always returns success. -/
def closeStdioTransport (_t : Unit) : Except TransportError Unit :=
  .ok ()

/-- `ProperMcpClient::disconnect` (proper_mcp_client.rs lines 263-285):
take and close the transport if present, set `Disconnected`, clear the
cached tools and capabilities. -/
def disconnect (c : ProperMcpClient) : Except McpClientError Unit × ProperMcpClient :=
  match c.transport with
  | some t =>
    match closeStdioTransport t with
    | .error e => (.error (.Transport e), { c with transport := none })
    | .ok _ =>
      (.ok (), { transport := none, state := .Disconnected,
                 server_capabilities := none, tools := [] })
  | none =>
    (.ok (), { transport := none, state := .Disconnected,
               server_capabilities := none, tools := [] })

/-- State of the transport tasks of mcp_transport.rs: the registration
channel into `pending_handle`, the response channel from the stdout
reader, the stdin channel into the writer task, the correlator map owned
by `pending_handle`, the requests already written to the child (by id),
and the slot deliveries performed so far. -/
structure CorrState where
  regQ : List (String × Nat)
  respQ : List JsonRpcResponse
  stdinQ : List String
  pmap : List (String × Nat)
  wire : List String
  delivered : List (Nat × Except TransportError Json)
deriving Repr

def emptyCorrState : CorrState :=
  { regQ := [], respQ := [], stdinQ := [], pmap := [], wire := [], delivered := [] }

/-- One scheduling choice among the concurrent tasks: `pending_handle`
consuming a registration, `pending_handle` consuming a response, the
stdin writer writing one queued request, or the server answering a
request it has already received. -/
inductive Step where
  | procReg
  | procResp
  | writeStdin
  | serverReply (r : JsonRpcResponse)

/-- Small-step semantics of the transport tasks. Each arm is the body of
the corresponding source loop iteration (mcp_transport.rs lines 103-128
for the correlator arms, lines 131-156 for the writer). A step whose
queue is empty is a no-op. -/
def step (s : CorrState) : Step → CorrState
  | .procReg =>
    match s.regQ with
    | [] => s
    | (id, slot) :: rest => { s with regQ := rest, pmap := pendingRegister s.pmap id slot }
  | .procResp =>
    match s.respQ with
    | [] => s
    | r :: rest =>
      let o := pendingDeliver s.pmap r
      let woken : List (Nat × Except TransportError Json) :=
        match o.delivered with
        | some d => [d]
        | none => []
      { s with respQ := rest, pmap := o.pmap, delivered := s.delivered ++ woken }
  | .writeStdin =>
    match s.stdinQ with
    | [] => s
    | id :: rest => { s with stdinQ := rest, wire := s.wire ++ [id] }
  | .serverReply r =>
    match r.id with
    | .str id => if s.wire.contains id then { s with respQ := s.respQ ++ [r] } else s
    | .num _ => s

def run (s : CorrState) (sched : List Step) : CorrState :=
  sched.foldl step s

/-- The caller side of `StdioTransport::send_request` (mcp_transport.rs
lines 223-231) in program order: the registration is sent to the
correlator channel first, then the request to the stdin channel. -/
def sendRequestEnqueue (s : CorrState) (id : String) (slot : Nat) : CorrState :=
  { s with regQ := s.regQ ++ [(id, slot)], stdinQ := s.stdinQ ++ [id] }

/-- C1 counterexample: run `StdioTransport::send_request` on the empty
correlator map with id "a" and let the deadline elapse. The caller does
receive `Timeout`, but the correlation entry for "a" is still in the
pending-request map — the source has no deregistration on this path — so
the claim that the map no longer contains the id is false. -/
theorem c1_counterexample :
    (sendRequestTimeoutPath [] "a" 0).result = TransportError.Timeout ∧
    mapLookup (sendRequestTimeoutPath [] "a" 0).pmap "a" = some 0 := by
  exact ⟨rfl, by decide⟩

/-- C1 (amended): on timeout, `StdioTransport::send_request` returns
`Timeout` but leaves the correlation entry registered in the map; only
`McpClient::send_request` (mcp_client.rs) removes the entry before
returning its timeout error. -/
theorem c1_amended (m : List (String × Nat)) (id : String) (slot : Nat) :
    (sendRequestTimeoutPath m id slot).result = TransportError.Timeout ∧
    mapLookup (sendRequestTimeoutPath m id slot).pmap id = some slot ∧
    (clientSendRequestTimeoutPath m id slot).errMsg = "Request timeout" ∧
    mapLookup (clientSendRequestTimeoutPath m id slot).pmap id = none := by
  refine ⟨rfl, ?_, rfl, ?_⟩
  · simpa [sendRequestTimeoutPath, pendingRegister] using mapLookup_mapInsert_self m id slot
  · simpa [clientSendRequestTimeoutPath] using mapLookup_mapRemove_self (mapInsert m id slot) id

/-- C2 counterexample: with id "a" already registered (slot 0), a second
registration under "a" (slot 1) is not rejected — the registration arm has
no failure outcome at all — and it silently replaces the existing entry. -/
theorem c2_counterexample :
    pendingRegister (pendingRegister [] "a" 0) "a" 1 = [("a", 1)] ∧
    mapLookup (pendingRegister (pendingRegister [] "a" 0) "a" 1) "a" = some 1 := by
  decide

/-- C2 (amended): registering a second completion slot under an id already
present silently replaces the existing entry; the correlator registration
path is infallible (no `Protocol` failure exists there). -/
theorem c2_amended (m : List (String × Nat)) (id : String) (s₁ s₂ : Nat) :
    mapLookup (pendingRegister (pendingRegister m id s₁) id s₂) id = some s₂ := by
  simpa [pendingRegister] using mapLookup_mapInsert_self (mapInsert m id s₁) id s₂

/-- A server reply to `tools/call` carrying the error object
code -32001, message "boom". -/
def boomResponse : JsonRpcResponse :=
  { id := .str "u", result := none, error := some { code := -32001, message := "boom" } }

/-- A client that has completed the handshake. -/
def connectedClient : ProperMcpClient :=
  { transport := some (), state := .Connected,
    server_capabilities := some { tools := some { list := true }, prompts := none, resources := none },
    tools := [] }

/-- C3 counterexample: when the server answers `tools/call` with the error
object code -32001, message "boom", the caller of `call_tool` receives
`Transport (Process "RPC error -32001: boom")` — the code and message are
flattened into one formatted string, and the message is not the verbatim
"boom"; no structured RpcError value reaches the caller. -/
theorem c3_counterexample :
    (call_tool connectedClient (fun _ _ => responseToResult boomResponse) "x" none).1.result
      = .error (.Transport (.Process "RPC error -32001: boom")) ∧
    ("RPC error -32001: boom" : String) ≠ "boom" := by
  exact ⟨rfl, by decide⟩

/-- C3 (amended): a server error reply to `tools/call` surfaces to the
caller as `Transport (Process s)` where `s` is the formatted string
"RPC error {code}: {message}" built by the correlator; the error code and
message reach the caller only embedded in that display string. -/
theorem c3_amended (st : ClientState) (caps : Option ServerCapabilities) (tc : List Tool)
    (rid : String) (code : Int) (msg : String) (name : String) (args : Option Json) :
    (call_tool { transport := some (), state := st, server_capabilities := caps, tools := tc }
        (fun _ _ => responseToResult { id := .str rid, result := none,
                                       error := some { code := code, message := msg } })
        name args).1.result
      = .error (.Transport (.Process (formatRpcError code msg))) := rfl

/-- C8 counterexample: `McpClient::send_request` (mcp_client.rs, cited by
the claim) waits only 10 seconds, not 30: a response arriving 15 seconds
in — well inside the claimed 30-second window — is not delivered; the call
has already failed with its timeout error. -/
theorem c8_counterexample :
    mcpClientSendDeadline ≠ 30 ∧
    clientAwaitWithTimeout (some (15, .delivered (.num 1))) = .error "Request timeout" ∧
    15 < 30 := by
  exact ⟨by decide, rfl, by decide⟩

/-- C8 (amended): `StdioTransport::send_request` bounds the wait at a fixed
30 seconds — a response arriving before the deadline is delivered, a
never-arriving response fails with `Timeout` — while
`McpClient::send_request` bounds its wait at 10 seconds. -/
theorem c8_amended (t : Nat) (v : Except TransportError Json) (w : Json) :
    transportSendDeadline = 30 ∧
    awaitWithTimeout none = .error .Timeout ∧
    awaitWithTimeout (some (t, .delivered v)) = (if t < 30 then v else .error .Timeout) ∧
    mcpClientSendDeadline = 10 ∧
    clientAwaitWithTimeout none = .error "Request timeout" ∧
    clientAwaitWithTimeout (some (t, .delivered w))
      = (if t < 10 then .ok w else .error "Request timeout") := by
  exact ⟨rfl, rfl, rfl, rfl, rfl, rfl⟩

/-- A client caught mid-connect: `connect` has installed the transport
(proper_mcp_client.rs line 78) but `initialize` has not yet stored the
server capabilities. -/
def connectingClient : ProperMcpClient :=
  { transport := some (), state := .Connecting, server_capabilities := none, tools := [] }

/-- C4: evaluating `list_tools` at the failing input — a client whose
`connect` is still running (transport present, capabilities not yet
stored) — the code returns `Protocol "Server not initialized"`, not the
`NotConnected` the specification requires for calls made before `connect`
completes. -/
theorem c4_code_behavior :
    (list_tools connectingClient (fun _ _ => .error .Timeout)).1.result
      = .error (.Protocol "Server not initialized") ∧
    (list_tools connectingClient (fun _ _ => .error .Timeout)).1.result
      ≠ .error .NotConnected := by
  refine ⟨rfl, ?_⟩
  intro h
  exact McpClientError.noConfusion (Except.error.inj h)

/-- C6: on a Connected client whose stored capabilities lack the `tools`
sub-capability, `list_tools` returns the empty list and puts nothing on
the wire. -/
theorem c6_no_tools_capability (caps : ServerCapabilities) (tc : List Tool)
    (oracle : TransportOracle) (h : caps.tools = none) :
    (list_tools { transport := some (), state := .Connected,
                  server_capabilities := some caps, tools := tc } oracle).1.result = .ok [] ∧
    (list_tools { transport := some (), state := .Connected,
                  server_capabilities := some caps, tools := tc } oracle).1.sent = [] := by
  obtain ⟨tcap, p, r⟩ := caps
  cases tcap with
  | none => exact ⟨rfl, rfl⟩
  | some x => simp at h

/-- C6 witness: a concrete Connected client advertising no `tools`
capability. -/
theorem c6_no_tools_capability_witness :
    ({ tools := none, prompts := none, resources := none } : ServerCapabilities).tools = none ∧
    ((list_tools { transport := some (), state := .Connected,
                   server_capabilities := some { tools := none, prompts := none, resources := none },
                   tools := [] } (fun _ _ => .error .Timeout)).1.result = .ok [] ∧
     (list_tools { transport := some (), state := .Connected,
                   server_capabilities := some { tools := none, prompts := none, resources := none },
                   tools := [] } (fun _ _ => .error .Timeout)).1.sent = []) :=
  ⟨rfl, c6_no_tools_capability { tools := none, prompts := none, resources := none } []
      (fun _ _ => .error .Timeout) rfl⟩

/-- C7: `disconnect` is idempotent from every client state — the first and
an immediately following second call both return success, afterwards
`get_state` yields `Disconnected` and the cached tools and capabilities
are empty, and the second call leaves the client exactly where the first
put it. -/
theorem c7_disconnect_idempotent (c : ProperMcpClient) :
    (disconnect c).1 = .ok () ∧
    (disconnect (disconnect c).2).1 = .ok () ∧
    get_state (disconnect c).2 = .Disconnected ∧
    (disconnect c).2.tools = [] ∧
    (disconnect c).2.server_capabilities = none ∧
    (disconnect (disconnect c).2).2 = (disconnect c).2 := by
  obtain ⟨t, st, caps, ts⟩ := c
  cases t <;> simp [disconnect, closeStdioTransport, get_state]

/-- C9: a response whose id is an integer is never delivered by either
correlator — the transport correlator `pending_handle` and the
`McpClient::handle_message` path both drop it, leaving the pending map
unchanged and waking no caller. -/
theorem c9_integer_id_dropped (m : List (String × Nat)) (n : Int)
    (res : Option Json) (err : Option JsonRpcError) :
    pendingDeliver m { id := .num n, result := res, error := err }
        = { pmap := m, delivered := none } ∧
    handle_message m { id := .num n, result := res, error := err } = (m, none) :=
  ⟨rfl, rfl⟩

/-- C10: `call_tool` gates on transport presence alone — without a
transport it fails `NotConnected` and sends nothing; with one, the
`tools/call` request goes on the wire whatever the state or capabilities,
and `NotConnected` is returned exactly when the transport is absent. -/
theorem c10_call_tool_transport_gate (t : Option Unit) (st : ClientState)
    (caps : Option ServerCapabilities) (tc : List Tool) (oracle : TransportOracle)
    (name : String) (args : Option Json) :
    ((call_tool { transport := t, state := st, server_capabilities := caps, tools := tc }
        oracle name args).1.sent
      = match t with
        | none => []
        | some _ => [("tools/call", some (callToolParams name args))]) ∧
    (((call_tool { transport := t, state := st, server_capabilities := caps, tools := tc }
        oracle name args).1.result = .error .NotConnected) ↔ t = none) := by
  cases t with
  | none => exact ⟨rfl, by simp [call_tool]⟩
  | some u =>
    cases h : oracle "tools/call" (some (callToolParams name args)) with
    | error e => exact ⟨by simp [call_tool, h], by simp [call_tool, h]⟩
    | ok v =>
      cases hp : parseCallToolResponse v with
      | none => exact ⟨by simp [call_tool, h, hp], by simp [call_tool, h, hp]⟩
      | some resp => exact ⟨by simp [call_tool, h, hp], by simp [call_tool, h, hp]⟩

/-- C5 counterexample: starting from an idle transport, a caller enqueues
request "a" (registration first, then the request — mcp_transport.rs
lines 226-231). Under the schedule where the stdin writer runs before the
correlator task, the request is on the wire while the map still lacks the
entry; a server response arriving after that write is then processed
before the registration, is dropped, and the caller is never woken — the
claimed insert-before-write ordering does not hold of the map itself. -/
theorem c5_counterexample :
    ((run (sendRequestEnqueue emptyCorrState "a" 0) [.writeStdin]).wire = ["a"] ∧
     mapLookup (run (sendRequestEnqueue emptyCorrState "a" 0) [.writeStdin]).pmap "a" = none) ∧
    ((run (sendRequestEnqueue emptyCorrState "a" 0)
        [.writeStdin, .serverReply { id := .str "a", result := some (.num 1), error := none },
         .procResp, .procReg]).delivered = [] ∧
     mapLookup (run (sendRequestEnqueue emptyCorrState "a" 0)
        [.writeStdin, .serverReply { id := .str "a", result := some (.num 1), error := none },
         .procResp, .procReg]).pmap "a" = some 0) := by
  exact ⟨⟨rfl, rfl⟩, ⟨rfl, rfl⟩⟩

/-- C5 (amended): `send_request` enqueues the registration to the
correlator channel before it enqueues the request to the writer, but the
map insert itself happens asynchronously in the correlator task; only in
schedules where the correlator consumes the registration before the
response does the arriving response wake the caller (and remove the
entry). -/
theorem c5_amended (id : String) (slot : Nat) (v : Json) :
    (sendRequestEnqueue emptyCorrState id slot).regQ = [(id, slot)] ∧
    (sendRequestEnqueue emptyCorrState id slot).wire = [] ∧
    (run (sendRequestEnqueue emptyCorrState id slot)
        [.procReg, .writeStdin, .serverReply { id := .str id, result := some v, error := none },
         .procResp]).delivered = [(slot, .ok v)] ∧
    mapLookup (run (sendRequestEnqueue emptyCorrState id slot)
        [.procReg, .writeStdin, .serverReply { id := .str id, result := some v, error := none },
         .procResp]).pmap id = none := by
  refine ⟨rfl, rfl, ?_, ?_⟩ <;>
    simp [run, List.foldl, step, sendRequestEnqueue, emptyCorrState, pendingRegister,
      mapInsert, mapRemove, mapLookup, pendingDeliver, responseToResult, List.contains]
